import Mathlib

/-!
Shallow embedding of `src/facr_builder.py` (the FACR builder).

Python dictionaries for hosts and service endpoints are modelled by the
structure `Server`; a missing `ip_address` key (before resolution) is the
default `none`.  The service definition dictionary is modelled by `Service`,
whose fields are `Option`s because each key may be absent; accessing an
absent key with `d[k]` raises `KeyError`, modelled by `Except` with
`PyErr.keyError`.  The `socket` library is modelled by a `Resolver` oracle:
`gethostbyname` returns `none` when the lookup raises `socket.error`
(which `get_ip_address` catches), and `getfqdn` is total on strings
(CPython `socket.getfqdn` catches `gethostbyaddr` errors internally and
always returns a string when given a string).  Calling `socket.getfqdn`
with `None` executes `None.strip()` and raises `AttributeError`, which the
`except socket.error` clause in `get_fqdn` does not catch; this is modelled
by `PyErr.attributeError`.
-/

namespace FacrBuilder

/-- Python exceptions that the embedded code can raise. -/
inductive PyErr where
  | keyError (key : String)
  | attributeError
deriving Repr, DecidableEq

/-- A host or endpoint dictionary: `hostname` is always present
(set by `load_hosts` or required in the services YAML), `ip_address`
is absent (`none` as a value after a failed lookup, or missing before
`add_server_info` runs), `protocol_port` is the verbatim port token of
endpoint entries (unused for plain hosts). -/
structure Server where
  hostname : String
  ip_address : Option String := none
  protocol_port : String := ""
deriving Repr, DecidableEq

/-- The `Rule` dataclass: nine fields, declaration order significant.
The two address fields hold `None` in Python when resolution failed,
hence `Option String` here. -/
structure Rule where
  source_hostname : String
  source_ip_address : Option String
  source_lob : String
  destination_hostname : String
  destination_ip_address : Option String
  destination_lob : String
  destination_protocol_port : String
  add_modify_remove : String := "Add"
  temporary : String := "No"
deriving Repr, DecidableEq

/-- A service definition dictionary as loaded from YAML.  Every key may be
absent.  `biDirectional` stands for the Python key `"bi-directional"`. -/
structure Service where
  incoming : Option (List Server) := none
  outgoing : Option (List Server) := none
  biDirectional : Option Bool := none
  lob : Option String := none
deriving Repr, DecidableEq

/-- The name-service oracle standing for the `socket` library.
`gethostbyname h = none` models `socket.gethostbyname` raising
`socket.error` (caught by `get_ip_address`); `getfqdn` is the value
`socket.getfqdn` returns on a string argument. -/
structure Resolver where
  gethostbyname : String → Option String
  getfqdn : String → String

/-- Python `str.lower()`: lowercase every character. -/
def pyLower (s : String) : String :=
  ⟨s.data.map Char.toLower⟩

/-- `get_service`: lowercases the requested name and looks it up among the
catalog keys; the catalog (a Python dict) is an association list. -/
def get_service (name : String) (services : List (String × Service)) :
    Option Service :=
  if (services.map Prod.fst).contains (pyLower name) then
    (services.find? (fun p => p.1 = pyLower name)).map Prod.snd
  else
    none

/-- `get_ip_address`: forward lookup, `socket.error` caught and turned
into `None`. -/
def get_ip_address (r : Resolver) (hostname : String) : Option String :=
  r.gethostbyname hostname

/-- `get_fqdn`: reverse lookup.  On a string argument `socket.getfqdn`
returns a string and never raises `socket.error`; on `None` it raises
`AttributeError` (from `None.strip()`), which the `except socket.error`
clause does not catch. -/
def get_fqdn (r : Resolver) : Option String → Except PyErr String
  | none => .error .attributeError
  | some s => .ok (r.getfqdn s)

/-- `add_server_info`: store the forward-lookup result in `ip_address`,
then reverse-look it up; if the reverse lookup echoes the address back,
keep the original hostname, otherwise replace the hostname by the
canonical name.  Raises (returns `.error`) when the forward lookup failed,
because `get_fqdn` is then called on `None`. -/
def add_server_info (r : Resolver) (server : Server) : Except PyErr Server :=
  let server1 := { server with ip_address := get_ip_address r server.hostname }
  match get_fqdn r server1.ip_address with
  | .error e => .error e
  | .ok fqdn =>
      if some fqdn = server1.ip_address then
        .ok server1
      else
        .ok { server1 with hostname := fqdn }

/-- The rule built in the inbound loop of `generate_rules`. -/
def inboundRule (host_lob service_lob : String) (host server : Server) : Rule :=
  { source_hostname := host.hostname
    source_ip_address := host.ip_address
    source_lob := host_lob
    destination_hostname := server.hostname
    destination_ip_address := server.ip_address
    destination_lob := service_lob
    destination_protocol_port := server.protocol_port }

/-- The rule built in the outbound loop of `generate_rules`; its source
LOB is the literal "CONINFRA". -/
def outboundRule (host_lob : String) (server host : Server) : Rule :=
  { source_hostname := server.hostname
    source_ip_address := server.ip_address
    source_lob := "CONINFRA"
    destination_hostname := host.hostname
    destination_ip_address := host.ip_address
    destination_lob := host_lob
    destination_protocol_port := server.protocol_port }

/-- `generate_rules`: the inbound nested loop (`hosts` outer,
`service["incoming"]` inner) appends one rule per pair; `service["incoming"]`
is evaluated inside the outer loop, so it is never read when `hosts` is
empty.  If `"bi-directional"` is falsy the inbound rules are returned;
otherwise `service["outgoing"]` is read (raising `KeyError` when absent)
and the outbound nested loop (`outgoing` outer, `hosts` inner) appends the
remaining rules. -/
def generate_rules (hosts : List Server) (host_lob : String)
    (service : Service) (service_lob : String) : Except PyErr (List Rule) :=
  let inbound : Except PyErr (List Rule) :=
    hosts.foldl
      (fun acc host =>
        acc.bind fun rules =>
          match service.incoming with
          | none => .error (.keyError "incoming")
          | some inc =>
              .ok (inc.foldl
                (fun rs server =>
                  rs ++ [inboundRule host_lob service_lob host server])
                rules))
      (.ok [])
  inbound.bind fun rules =>
    if !(service.biDirectional.getD false) then
      .ok rules
    else
      match service.outgoing with
      | none => .error (.keyError "outgoing")
      | some outg =>
          .ok (outg.foldl
            (fun rs server =>
              hosts.foldl
                (fun rs2 host => rs2 ++ [outboundRule host_lob server host])
                rs)
            rules)

/-- `generate_rules_for_service`: resolves the incoming and outgoing
endpoint lists in place (the Python code overwrites `service["incoming"]`
and `service["outgoing"]`), then calls `generate_rules` with
`service.get("lob", "CONINFRA")`.  The returned `Service` is the
post-call state of the (mutated) input dictionary. -/
def generate_rules_for_service (r : Resolver) (hosts : List Server)
    (lob : String) (service : Service) :
    Except PyErr (List Rule × Service) :=
  let s1 : Except PyErr Service :=
    match service.incoming with
    | none => .ok service
    | some inc =>
        (inc.mapM (add_server_info r)).map
          (fun inc1 => { service with incoming := some inc1 })
  match s1 with
  | .error e => .error e
  | .ok service1 =>
      let s2 : Except PyErr Service :=
        match service1.outgoing with
        | none => .ok service1
        | some outg =>
            (outg.mapM (add_server_info r)).map
              (fun outg1 => { service1 with outgoing := some outg1 })
      match s2 with
      | .error e => .error e
      | .ok service2 =>
          match generate_rules hosts lob service2 (service2.lob.getD "CONINFRA") with
          | .error e => .error e
          | .ok rules => .ok (rules, service2)

/-- Python `None` becomes the empty CSV cell. -/
def optStr : Option String → String
  | none => ""
  | some s => s

/-- `dataclasses.asdict` applied to a `Rule`, with values already in their
CSV form (None printed as the empty cell). -/
def asdict (r : Rule) : List (String × String) :=
  [("source_hostname", r.source_hostname),
   ("source_ip_address", optStr r.source_ip_address),
   ("source_lob", r.source_lob),
   ("destination_hostname", r.destination_hostname),
   ("destination_ip_address", optStr r.destination_ip_address),
   ("destination_lob", r.destination_lob),
   ("destination_protocol_port", r.destination_protocol_port),
   ("add_modify_remove", r.add_modify_remove),
   ("temporary", r.temporary)]

/-- `[f.name for f in fields(Rule)]`: the dataclass field names in
declaration order. -/
def ruleHeader : List String :=
  ["source_hostname", "source_ip_address", "source_lob",
   "destination_hostname", "destination_ip_address", "destination_lob",
   "destination_protocol_port", "add_modify_remove", "temporary"]

/-- `write_rules_to_csv` as the list of CSV rows it writes: the header
row, then one row per rule; `csv.DictWriter` emits, for each row, the
dictionary values in `fieldnames` order. -/
def write_rules_to_csv (rules : List Rule) : List (List String) :=
  ruleHeader :: rules.map (fun r => ruleHeader.map (fun n => ((asdict r).lookup n).getD ""))

/-! Concrete sample inputs, used by witnesses and counterexamples. -/

/-- A resolved host, as produced by `load_hosts` plus `add_server_info`. -/
def hostA : Server := { hostname := "h1", ip_address := some "10.0.0.1" }

/-- A resolved incoming endpoint. -/
def endpS1 : Server :=
  { hostname := "s1", ip_address := some "10.0.0.2", protocol_port := "443/tcp" }

/-- A resolved outgoing endpoint whose address lookup failed. -/
def endpS2 : Server :=
  { hostname := "s2", ip_address := none, protocol_port := "8443/tcp" }

/-- A non-bidirectional service with two incoming endpoints. -/
def svcIn : Service := { incoming := some [endpS1, endpS2] }

/-- A bidirectional service with one incoming and one outgoing endpoint. -/
def svcBid : Service :=
  { incoming := some [endpS1], outgoing := some [endpS2],
    biDirectional := some true, lob := some "PAYMENTS" }

/-- A bidirectional service whose `outgoing` key is absent. -/
def svcBidNoOut : Service :=
  { incoming := some [endpS1], biDirectional := some true }

/-- A service catalog entry used by the lookup claims. -/
def svcSsh : Service := { incoming := some [endpS1] }

/-- A resolver on which every forward lookup succeeds with a fixed address
and the reverse lookup echoes the address back (no PTR record). -/
def resolverOkNoPtr : Resolver :=
  { gethostbyname := fun _ => some "10.0.0.7", getfqdn := fun s => s }

/-- A resolver on which every forward lookup raises `socket.error`. -/
def resolverFail : Resolver :=
  { gethostbyname := fun _ => none, getfqdn := fun s => s }

/-- An unresolved endpoint as it appears in the services YAML. -/
def endpRaw : Server := { hostname := "s1", protocol_port := "443/tcp" }

/-- A service as loaded from YAML, before endpoint resolution. -/
def svcResolve : Service := { incoming := some [endpRaw] }

/-- `svcResolve` after `generate_rules_for_service` resolved its incoming
endpoint through `resolverOkNoPtr`. -/
def svcResolved : Service :=
  { incoming := some
      [{ hostname := "s1", ip_address := some "10.0.0.7",
         protocol_port := "443/tcp" }] }

/-- The one rule `generate_rules_for_service` emits for `hostA` and
`svcResolve` under `resolverOkNoPtr`. -/
def ruleC9 : Rule :=
  { source_hostname := "h1", source_ip_address := some "10.0.0.1",
    source_lob := "FUELS", destination_hostname := "s1",
    destination_ip_address := some "10.0.0.7", destination_lob := "CONINFRA",
    destination_protocol_port := "443/tcp" }

/-! Helper lemmas about the folds inside `generate_rules`. -/

/-- A fold whose every step wraps `Except.ok` stays `Except.ok` and computes
the fold of the step functions. -/
theorem except_foldl_ok {σ α ε : Type} (g : σ → α → σ) :
    ∀ (l : List α) (s : σ),
      l.foldl (fun a x => Except.bind a fun r => Except.ok (g r x))
        (Except.ok s : Except ε σ) = Except.ok (l.foldl g s)
  | [], _ => rfl
  | x :: l, s => except_foldl_ok g l (g s x)

/-- A fold of binds starting from an error stays that error. -/
theorem except_foldl_error {σ α ε : Type} (f : α → σ → Except ε σ) :
    ∀ (l : List α) (e : ε),
      l.foldl (fun a x => Except.bind a fun r => f x r)
        (Except.error e : Except ε σ) = Except.error e
  | [], _ => rfl
  | _ :: l, e => except_foldl_error f l e

/-- The nested append-one-rule-at-a-time loop of `generate_rules` computes
the flat concatenation in outer-then-inner loop order. -/
theorem nested_foldl_flatMap {α β γ : Type} (F : α → β → γ) :
    ∀ (l1 : List α) (l2 : List β) (init : List γ),
      l1.foldl (fun acc x => l2.foldl (fun r y => r ++ [F x y]) acc) init =
        init ++ l1.flatMap (fun x => l2.map (F x)) := by
  intro l1
  induction l1 with
  | nil => simp
  | cons a l ih =>
      intro l2 init
      have h1 : ∀ (l2 : List β) (acc : List γ),
          l2.foldl (fun r y => r ++ [F a y]) acc = acc ++ l2.map (F a) := by
        intro l2
        induction l2 with
        | nil => simp
        | cons b t iht => intro acc; simp [iht, List.append_assoc]
      simp [List.foldl_cons, h1, ih, List.append_assoc]

/-- Length of a rectangular flat map. -/
theorem length_flatMap_map {α β γ : Type} (l1 : List α) (l2 : List β)
    (F : α → β → γ) :
    (l1.flatMap fun x => l2.map (F x)).length = l1.length * l2.length := by
  induction l1 with
  | nil => simp
  | cons a t ih => simp [ih, Nat.succ_mul]; omega

/-- `generate_rules` on a non-bidirectional service whose incoming list is
present: exactly the inbound rules, hosts outer, incoming inner. -/
theorem generate_rules_eq_nonbid (hosts : List Server)
    (host_lob service_lob : String) (service : Service) (inc : List Server)
    (hinc : service.incoming = some inc)
    (hb : service.biDirectional.getD false = false) :
    generate_rules hosts host_lob service service_lob =
      Except.ok (hosts.flatMap fun h =>
        inc.map fun s => inboundRule host_lob service_lob h s) := by
  unfold generate_rules
  simp only [hinc, hb]
  rw [except_foldl_ok
    (fun rules host => inc.foldl
      (fun rs server => rs ++ [inboundRule host_lob service_lob host server])
      rules) hosts []]
  rw [nested_foldl_flatMap (fun h s => inboundRule host_lob service_lob h s)
    hosts inc []]
  rfl

/-- `generate_rules` on a bidirectional service with both endpoint lists
present: the inbound rules followed by the outbound rules, each block in
its loop order. -/
theorem generate_rules_eq_bid (hosts : List Server)
    (host_lob service_lob : String) (service : Service)
    (inc outg : List Server)
    (hinc : service.incoming = some inc)
    (houtg : service.outgoing = some outg)
    (hb : service.biDirectional.getD false = true) :
    generate_rules hosts host_lob service service_lob =
      Except.ok
        ((hosts.flatMap fun h =>
            inc.map fun s => inboundRule host_lob service_lob h s) ++
          outg.flatMap fun s =>
            hosts.map fun h => outboundRule host_lob s h) := by
  unfold generate_rules
  simp only [hinc, houtg, hb]
  rw [except_foldl_ok
    (fun rules host => inc.foldl
      (fun rs server => rs ++ [inboundRule host_lob service_lob host server])
      rules) hosts []]
  rw [nested_foldl_flatMap (fun h s => inboundRule host_lob service_lob h s)
    hosts inc []]
  simp only [List.nil_append, Except.bind, Bool.not_true, Bool.false_eq_true,
    if_false]
  rw [nested_foldl_flatMap (fun s h => outboundRule host_lob s h) outg hosts]

/-- On a host list with at least one element, a missing `incoming` key
raises `KeyError` in the inbound loop. -/
theorem generate_rules_missing_incoming (h : Server) (t : List Server)
    (host_lob service_lob : String) (service : Service)
    (hi : service.incoming = none) :
    generate_rules (h :: t) host_lob service service_lob =
      Except.error (PyErr.keyError "incoming") := by
  unfold generate_rules
  simp only [hi, List.foldl_cons]
  rw [show (Except.bind (Except.ok ([] : List Rule)) fun rules =>
      (Except.error (PyErr.keyError "incoming") : Except PyErr (List Rule))) =
      Except.error (PyErr.keyError "incoming") from rfl]
  rw [except_foldl_error
    (fun _ rules => (Except.error (PyErr.keyError "incoming") :
      Except PyErr (List Rule))) t]
  rfl

/-- C1: for a valid service definition (incoming present, and outgoing
present when bidirectional), `generate_rules` emits
`hosts.length * incoming.length` rules when not bidirectional, and
`hosts.length * incoming.length + outgoing.length * hosts.length` rules
when bidirectional. -/
theorem generate_rules_count (hosts : List Server)
    (host_lob service_lob : String) (service : Service) (inc : List Server)
    (hinc : service.incoming = some inc) :
    (service.biDirectional.getD false = false →
      ∃ rules, generate_rules hosts host_lob service service_lob =
          Except.ok rules ∧
        rules.length = hosts.length * inc.length) ∧
    (∀ outg, service.biDirectional.getD false = true →
      service.outgoing = some outg →
      ∃ rules, generate_rules hosts host_lob service service_lob =
          Except.ok rules ∧
        rules.length =
          hosts.length * inc.length + outg.length * hosts.length) := by
  constructor
  · intro hb
    exact ⟨_, generate_rules_eq_nonbid hosts host_lob service_lob service inc
      hinc hb, length_flatMap_map hosts inc _⟩
  · intro outg hb ho
    refine ⟨_, generate_rules_eq_bid hosts host_lob service_lob service inc
      outg hinc ho hb, ?_⟩
    rw [List.length_append, length_flatMap_map, length_flatMap_map]

/-- C1 witness: one host; a two-endpoint non-bidirectional service gives
1 * 2 rules, a bidirectional service with one endpoint each way gives
1 * 1 + 1 * 1 rules. -/
theorem generate_rules_count_witness :
    (∃ rules, generate_rules [hostA] "FUELS" svcIn "CONINFRA" =
        Except.ok rules ∧ rules.length = 1 * 2) ∧
    (∃ rules, generate_rules [hostA] "FUELS" svcBid "PAYMENTS" =
        Except.ok rules ∧ rules.length = 1 * 1 + 1 * 1) :=
  ⟨(generate_rules_count [hostA] "FUELS" "CONINFRA" svcIn [endpS1, endpS2]
      rfl).1 rfl,
   (generate_rules_count [hostA] "FUELS" "PAYMENTS" svcBid [endpS1]
      rfl).2 [endpS2] rfl rfl⟩

/-- C2: the rule sequence is exactly the inbound block (hosts outer,
incoming endpoints inner) followed, when and only when the service is
bidirectional, by the outbound block (outgoing endpoints outer, hosts
inner).  `generate_rules` is a pure function of its arguments, so with the
resolver fixed the sequence is deterministic: identical inputs give the
identical sequence. -/
theorem generate_rules_order (hosts : List Server)
    (host_lob service_lob : String) (service : Service)
    (inc outg : List Server)
    (hinc : service.incoming = some inc)
    (houtg : service.biDirectional.getD false = true →
      service.outgoing = some outg) :
    generate_rules hosts host_lob service service_lob =
      Except.ok
        ((hosts.flatMap fun h =>
            inc.map fun s => inboundRule host_lob service_lob h s) ++
          (if service.biDirectional.getD false then
            outg.flatMap fun s => hosts.map fun h => outboundRule host_lob s h
          else [])) := by
  cases hb : service.biDirectional.getD false with
  | false =>
      simp only [hb, Bool.false_eq_true, if_false, List.append_nil]
      exact generate_rules_eq_nonbid hosts host_lob service_lob service inc
        hinc hb
  | true =>
      simp only [hb, if_true]
      exact generate_rules_eq_bid hosts host_lob service_lob service inc outg
        hinc (houtg hb) hb

/-- C2 witness: the concrete rule sequence for one host and the
bidirectional sample service. -/
theorem generate_rules_order_witness :
    generate_rules [hostA] "FUELS" svcBid "PAYMENTS" =
      Except.ok
        (([hostA].flatMap fun h =>
            [endpS1].map fun s => inboundRule "FUELS" "PAYMENTS" h s) ++
          (if svcBid.biDirectional.getD false then
            [endpS2].flatMap fun s =>
              [hostA].map fun h => outboundRule "FUELS" s h
          else [])) :=
  generate_rules_order [hostA] "FUELS" "PAYMENTS" svcBid [endpS1] [endpS2]
    rfl (fun _ => rfl)

/-- C4: in the bidirectional case, every rule of the outbound block (the
rules after the first `hosts.length * incoming.length`) has source LOB
exactly "CONINFRA" (whatever `host_lob` and the service LOB are),
destination LOB equal to `host_lob`, and its port copied from the outgoing
endpoint that produced it. -/
theorem generate_rules_outbound_coninfra (hosts : List Server)
    (host_lob service_lob : String) (service : Service)
    (inc outg : List Server)
    (hb : service.biDirectional.getD false = true)
    (hinc : service.incoming = some inc)
    (houtg : service.outgoing = some outg) :
    ∃ rules, generate_rules hosts host_lob service service_lob =
        Except.ok rules ∧
      ∀ r ∈ rules.drop (hosts.length * inc.length),
        r.source_lob = "CONINFRA" ∧ r.destination_lob = host_lob ∧
        ∃ s ∈ outg, ∃ h ∈ hosts,
          r.destination_protocol_port = s.protocol_port ∧
          r = outboundRule host_lob s h := by
  refine ⟨_, generate_rules_eq_bid hosts host_lob service_lob service inc outg
    hinc houtg hb, ?_⟩
  intro r hr
  rw [← length_flatMap_map hosts inc
    (fun h s => inboundRule host_lob service_lob h s), List.drop_left] at hr
  obtain ⟨s, hs, hr2⟩ := List.mem_flatMap.1 hr
  obtain ⟨h, hh, rfl⟩ := List.mem_map.1 hr2
  exact ⟨rfl, rfl, s, hs, h, hh, rfl, rfl⟩

/-- C4 witness: the outbound block of the bidirectional sample service. -/
theorem generate_rules_outbound_coninfra_witness :
    ∃ rules, generate_rules [hostA] "FUELS" svcBid "PAYMENTS" =
        Except.ok rules ∧
      ∀ r ∈ rules.drop (1 * 1),
        r.source_lob = "CONINFRA" ∧ r.destination_lob = "FUELS" ∧
        ∃ s ∈ [endpS2], ∃ h ∈ [hostA],
          r.destination_protocol_port = s.protocol_port ∧
          r = outboundRule "FUELS" s h :=
  generate_rules_outbound_coninfra [hostA] "FUELS" "PAYMENTS" svcBid
    [endpS1] [endpS2] rfl rfl rfl

/-- C5 counterexample: with an empty host list but a bidirectional service
whose `outgoing` key is absent, `generate_rules` raises `KeyError`
instead of returning the empty sequence, so the empty result does not hold
regardless of service content. -/
theorem generate_rules_empty_hosts_counterexample :
    generate_rules [] "FUELS" svcBidNoOut "CONINFRA" =
      Except.error (PyErr.keyError "outgoing") ∧
    generate_rules [] "FUELS" svcBidNoOut "CONINFRA" ≠
      Except.ok [] := by
  refine ⟨rfl, fun h => ?_⟩
  rw [show generate_rules [] "FUELS" svcBidNoOut "CONINFRA" =
    Except.error (PyErr.keyError "outgoing") from rfl] at h
  exact Except.noConfusion h

/-- C5 amended: an empty host list yields the empty rule sequence for
every service that is not bidirectional or whose `outgoing` list is
present; a bidirectional service with an absent `outgoing` list raises a
missing-key error instead. -/
theorem generate_rules_empty_hosts (host_lob service_lob : String)
    (service : Service)
    (h : service.biDirectional.getD false = false ∨
      ∃ outg, service.outgoing = some outg) :
    generate_rules [] host_lob service service_lob = Except.ok [] := by
  unfold generate_rules
  simp only [List.foldl_nil]
  cases hb : service.biDirectional.getD false with
  | false => rfl
  | true =>
      rcases h with hb2 | ⟨outg, ho⟩
      · rw [hb] at hb2; exact Bool.noConfusion hb2
      · simp only [ho, hb, Bool.not_true, Bool.false_eq_true, if_false]
        have hfold : ∀ (l : List Server),
            List.foldl (fun (rs : List Rule) (_ : Server) => rs) [] l = [] := by
          intro l
          induction l with
          | nil => rfl
          | cons a t ih => simp [ih]
        show Except.ok
          (List.foldl (fun (rs : List Rule) (_ : Server) => rs) [] outg) =
          Except.ok []
        rw [hfold outg]

/-- C5 amended witness: an empty host list with the bidirectional sample
service (outgoing present) gives the empty sequence. -/
theorem generate_rules_empty_hosts_witness :
    generate_rules [] "FUELS" svcBid "CONINFRA" = Except.ok [] :=
  generate_rules_empty_hosts "FUELS" "CONINFRA" svcBid
    (Or.inr ⟨[endpS2], rfl⟩)

/-- C10: a service whose bi-directional flag is true but whose `outgoing`
key is absent makes `generate_rules` raise a missing-key error, even when
the host list is empty. -/
theorem generate_rules_missing_outgoing (hosts : List Server)
    (host_lob service_lob : String) (service : Service)
    (hb : service.biDirectional.getD false = true)
    (ho : service.outgoing = none) :
    ∃ k, generate_rules hosts host_lob service service_lob =
      Except.error (PyErr.keyError k) := by
  cases hi : service.incoming with
  | some inc =>
      refine ⟨"outgoing", ?_⟩
      unfold generate_rules
      simp only [hi, hb, ho]
      rw [except_foldl_ok
        (fun rules host => inc.foldl
          (fun rs server =>
            rs ++ [inboundRule host_lob service_lob host server]) rules)
        hosts []]
      rfl
  | none =>
      cases hosts with
      | nil =>
          refine ⟨"outgoing", ?_⟩
          unfold generate_rules
          simp only [hb, ho, List.foldl_nil]
          rfl
      | cons h t =>
          exact ⟨"incoming", generate_rules_missing_incoming h t host_lob
            service_lob service hi⟩

/-- C10 witness: empty host list, bidirectional service without an
`outgoing` key. -/
theorem generate_rules_missing_outgoing_witness :
    ∃ k, generate_rules [] "FUELS" svcBidNoOut "CONINFRA" =
      Except.error (PyErr.keyError k) :=
  generate_rules_missing_outgoing [] "FUELS" "CONINFRA" svcBidNoOut rfl rfl

/-- C6 counterexample: the catalog key "Ssh" equals the requested name
"ssh" ignoring case, yet `get_service` returns `none`: the lookup
lowercases only the request, so keys holding uppercase letters never
match. -/
theorem get_service_case_counterexample :
    pyLower "Ssh" = pyLower "ssh" ∧
    get_service "ssh" [("Ssh", svcSsh)] = none :=
  ⟨rfl, rfl⟩

/-- C6 amended: `get_service` lowercases the requested name and compares
it with the catalog keys verbatim: it returns `none` exactly when no key
equals the lowercased request, and any returned definition is stored under
the lowercased request (so the lookup is case-insensitive in the request
only; keys holding uppercase letters are never matched). -/
theorem get_service_lowercase_lookup (name : String)
    (services : List (String × Service)) :
    (get_service name services = none ↔
      ∀ p ∈ services, p.1 ≠ pyLower name) ∧
    ∀ s, get_service name services = some s →
      (pyLower name, s) ∈ services := by
  unfold get_service
  by_cases hc : pyLower name ∈ services.map Prod.fst
  · have hct : (services.map Prod.fst).contains (pyLower name) = true := by
      simpa using hc
    simp only [hct, if_true]
    obtain ⟨p, hp, hfst⟩ := List.mem_map.1 hc
    constructor
    · constructor
      · intro h
        rw [Option.map_eq_none'] at h
        exact absurd (by simp [hfst])
          (List.find?_eq_none.1 h p hp)
      · intro hall
        exact absurd hfst (hall p hp)
    · intro s hs
      obtain ⟨q, hfind, hsnd⟩ := Option.map_eq_some'.1 hs
      have hq1 : q.1 = pyLower name := by
        simpa using List.find?_some hfind
      have hmem := List.mem_of_find?_eq_some hfind
      have hq : q = (pyLower name, s) := by
        cases q
        simp_all
      rw [← hq]
      exact hmem
  · have hct : (services.map Prod.fst).contains (pyLower name) = false := by
      simpa using hc
    simp only [hct, Bool.false_eq_true, if_false]
    constructor
    · constructor
      · intro _ p hp hp1
        exact hc (List.mem_map.2 ⟨p, hp, hp1⟩)
      · intro _
        trivial
    · intro s hs
      exact Option.noConfusion hs

/-- C6 amended witness: a catalog keyed by a lowercase name is found from
an uppercase request, and the hit is the stored entry. -/
theorem get_service_lowercase_lookup_witness :
    (pyLower "SSH", svcSsh) ∈ [("ssh", svcSsh)] :=
  (get_service_lowercase_lookup "SSH" [("ssh", svcSsh)]).2 svcSsh rfl

/-- C7: when the forward lookup succeeds, `add_server_info` keeps the
original hostname if the reverse lookup echoes the address back unchanged,
and replaces the hostname with the canonical name otherwise; either way
the address field is set to the resolved address. -/
theorem add_server_info_preserves_name (r : Resolver) (server : Server)
    (a : String) (hip : get_ip_address r server.hostname = some a) :
    (r.getfqdn a = a →
      add_server_info r server = Except.ok { server with ip_address := some a }) ∧
    (r.getfqdn a ≠ a →
      add_server_info r server = Except.ok
        { server with hostname := r.getfqdn a, ip_address := some a }) := by
  unfold add_server_info get_fqdn
  simp only [hip]
  constructor
  · intro hfq
    simp [hfq]
  · intro hfq
    simp [hfq]

/-- C7 witness: a resolver with no PTR record (reverse lookup echoes the
address) leaves the hostname "h1" in place. -/
theorem add_server_info_preserves_name_witness :
    add_server_info resolverOkNoPtr { hostname := "h1" } =
      Except.ok { hostname := "h1", ip_address := some "10.0.0.7" } :=
  (add_server_info_preserves_name resolverOkNoPtr { hostname := "h1" }
    "10.0.0.7" rfl).1 rfl

/-- C3: evaluating `add_server_info` at a host whose forward lookup fails.
The Python code stores `None` in `ip_address` and then calls
`socket.getfqdn(None)`, whose first statement `name.strip()` raises
`AttributeError`; the `except socket.error` clause in `get_fqdn` does not
catch it, so the call raises instead of keeping the original name with an
absent address and emitting the rule. -/
theorem add_server_info_raises_on_failed_lookup :
    add_server_info resolverFail { hostname := "nonexistent.invalid" } =
      Except.error PyErr.attributeError :=
  rfl

/-- C8: the serialized output is the header row holding exactly the nine
`Rule` field names in declaration order, followed by one row per rule with
the cells in that same column order; on an empty rule list the output is
the header row alone. -/
theorem write_rules_to_csv_schema (rules : List Rule) :
    write_rules_to_csv rules =
      ["source_hostname", "source_ip_address", "source_lob",
       "destination_hostname", "destination_ip_address", "destination_lob",
       "destination_protocol_port", "add_modify_remove", "temporary"] ::
        rules.map (fun r =>
          [r.source_hostname, optStr r.source_ip_address, r.source_lob,
           r.destination_hostname, optStr r.destination_ip_address,
           r.destination_lob, r.destination_protocol_port,
           r.add_modify_remove, r.temporary]) ∧
    write_rules_to_csv [] =
      [["source_hostname", "source_ip_address", "source_lob",
        "destination_hostname", "destination_ip_address", "destination_lob",
        "destination_protocol_port", "add_modify_remove", "temporary"]] :=
  ⟨rfl, rfl⟩

/-- C9 counterexample: `generate_rules_for_service` overwrites
`service["incoming"]` (and `service["outgoing"]`) with the resolved
endpoint records, so the service definition dictionary after the call
differs from the one passed in: here the incoming endpoint gained an
address.  The returned `Service` is the post-call state of the input
dictionary. -/
theorem generate_rules_for_service_mutates_service :
    generate_rules_for_service resolverOkNoPtr [hostA] "FUELS" svcResolve =
      Except.ok ([ruleC9], svcResolved) ∧
    svcResolved ≠ svcResolve :=
  ⟨rfl, by decide⟩

/-- C9 amended: rules are never mutated after creation and the host
records are only read by rule expansion (the embedding of `generate_rules`
is a pure function of `hosts`), but the service definition is not
read-only: a successful `generate_rules_for_service` call leaves the
bi-directional flag and the LOB unchanged while replacing the incoming
and outgoing endpoint lists with their resolved versions. -/
theorem generate_rules_for_service_frame (r : Resolver)
    (hosts : List Server) (lob : String) (service : Service)
    (rules : List Rule) (service2 : Service)
    (h : generate_rules_for_service r hosts lob service =
      Except.ok (rules, service2)) :
    service2.biDirectional = service.biDirectional ∧
    service2.lob = service.lob ∧
    (service.incoming = none → service2.incoming = none) ∧
    (∀ inc, service.incoming = some inc →
      ∃ inc2, inc.mapM (add_server_info r) = Except.ok inc2 ∧
        service2.incoming = some inc2) ∧
    (service.outgoing = none → service2.outgoing = none) ∧
    (∀ outg, service.outgoing = some outg →
      ∃ outg2, outg.mapM (add_server_info r) = Except.ok outg2 ∧
        service2.outgoing = some outg2) := by
  unfold generate_rules_for_service at h
  cases hi : service.incoming with
  | none =>
      simp only [hi] at h
      cases ho : service.outgoing with
      | none =>
          simp only [ho] at h
          split at h
          · exact Except.noConfusion h
          · injection h with hp
            injection hp with h1 h2
            subst h2
            exact ⟨rfl, rfl, fun _ => hi, fun i hx => absurd hx (by simp),
              fun _ => ho, fun o hx => absurd hx (by simp)⟩
      | some outg =>
          simp only [ho] at h
          cases hm : outg.mapM (add_server_info r) with
          | error e =>
              rw [hm] at h
              simp only [Except.map] at h
              exact Except.noConfusion h
          | ok outg2 =>
              rw [hm] at h
              simp only [Except.map] at h
              split at h
              · exact Except.noConfusion h
              · injection h with hp
                injection hp with h1 h2
                subst h2
                refine ⟨rfl, rfl, fun _ => rfl,
                  fun i hx => absurd hx (by simp),
                  fun hx => absurd hx (by simp),
                  fun o hx => ?_⟩
                obtain rfl := Option.some.inj hx
                exact ⟨outg2, hm, rfl⟩
  | some inc =>
      simp only [hi] at h
      cases hmi : inc.mapM (add_server_info r) with
      | error e =>
          rw [hmi] at h
          simp only [Except.map] at h
          exact Except.noConfusion h
      | ok inc2 =>
          rw [hmi] at h
          simp only [Except.map] at h
          cases ho : service.outgoing with
          | none =>
              simp only [ho] at h
              split at h
              · exact Except.noConfusion h
              · injection h with hp
                injection hp with h1 h2
                subst h2
                refine ⟨rfl, rfl, fun hx => absurd hx (by simp),
                  fun i hx => ?_,
                  fun _ => rfl,
                  fun o hx => absurd hx (by simp)⟩
                obtain rfl := Option.some.inj hx
                exact ⟨inc2, hmi, rfl⟩
          | some outg =>
              simp only [ho] at h
              cases hmo : outg.mapM (add_server_info r) with
              | error e =>
                  rw [hmo] at h
                  simp only [Except.map] at h
                  exact Except.noConfusion h
              | ok outg2 =>
                  rw [hmo] at h
                  simp only [Except.map] at h
                  split at h
                  · exact Except.noConfusion h
                  · injection h with hp
                    injection hp with h1 h2
                    subst h2
                    refine ⟨rfl, rfl, fun hx => absurd hx (by simp),
                      fun i hx => ?_,
                      fun hx => absurd hx (by simp),
                      fun o hx => ?_⟩
                    · obtain rfl := Option.some.inj hx
                      exact ⟨inc2, hmi, rfl⟩
                    · obtain rfl := Option.some.inj hx
                      exact ⟨outg2, hmo, rfl⟩

/-- C9 amended witness: the frame theorem applied to the concrete
resolution run of the C9 counterexample. -/
theorem generate_rules_for_service_frame_witness :
    svcResolved.biDirectional = svcResolve.biDirectional ∧
    svcResolved.lob = svcResolve.lob :=
  ⟨(generate_rules_for_service_frame resolverOkNoPtr [hostA] "FUELS"
      svcResolve [ruleC9] svcResolved rfl).1,
   (generate_rules_for_service_frame resolverOkNoPtr [hostA] "FUELS"
      svcResolve [ruleC9] svcResolved rfl).2.1⟩

end FacrBuilder
